import Mathlib

/-!
Verification of the transactional mod_nss certificate-store update tool
(src/update-mod-nss.c) against its natural-language specification.

The development shallowly embeds the parts of the program the claims are
about: the content-copy primitive with its mtime race check
(copy_file_contents), the fixed store-file replication (copy_nssdb_files),
the per-entry tree replication (copy_file, copy_metadata, create_symlink,
copy_link), the generation namer (new_nssdb_dir), the certificate-store
mutation (remove_old_certs / add_new_cert, with the NSS library calls
modelled from the spec's four-operation store interface), the atomic alias
swap (update_nssdb_symlink) and the phase ordering of main.

Machine integers are modelled as Nat (sizes, uids, modes) and Int
(timespec fields); every fallible operation returns Except Err.
-/

namespace UpdateModNss

/-- A timestamp with seconds and nanoseconds, as in struct timespec. -/
structure TimeSpec where
  sec : Int
  nsec : Int
deriving DecidableEq

/-- The filesystem object types the program distinguishes (S_IFMT). -/
inductive FType where
  | reg
  | lnk
  | dir
  | other
deriving DecidableEq

/-- The fields of struct stat the program reads.  The size of a regular
file is the length of its content list, so it is not duplicated here. -/
structure Stat where
  ftype : FType
  mode : Nat
  uid : Nat
  gid : Nat
  atim : TimeSpec
  mtim : TimeSpec
deriving DecidableEq

/-- Every fatal exit the embedded code can take. -/
inductive Err where
  | openFailed
  | notRegular
  | sizeInvalid
  | fileChanged
  | notSymlink
  | targetChanged
  | fmtFailed
  | yearOutOfRange
  | nssFailed
  | copyFailed
  | reapFailed
  | closeFailed
deriving DecidableEq

/-- SSIZE_MAX on the 64-bit target. -/
def ssizeMax : Nat := 2 ^ 63 - 1

/-- A source regular file as the program observes it: the stat and content
snapshot taken at open/fstat time (srcst), plus the content and mtime the
file has by the time the content copy has finished.  The "after" fields
differ from the snapshot exactly when another process mutated the file
during the copy; the program can only observe mtimAfter (via the re-fstat
in copy_file_contents), never contentAfter. -/
structure SrcFile where
  stat : Stat
  content : List Nat
  contentAfter : List Nat
  mtimAfter : TimeSpec
deriving DecidableEq

/-- A regular file in the destination tree: stat metadata plus content. -/
structure FileNode where
  stat : Stat
  content : List Nat
deriving DecidableEq

/-- Result of copy_file_contents: the destination content, whether a
content write (fallocate plus mmap copy) happened at all, and whether the
post-copy mtime race check ran. -/
structure CcResult where
  destContent : List Nat
  wrote : Bool
  checked : Bool
deriving DecidableEq

/-- Embeds copy_file_contents (src/update-mod-nss.c:409).  A zero-size
source returns at once, with no allocation, no write and no race check.
Otherwise the size is validated against SSIZE_MAX, the destination is
allocated and the whole content is copied, and the source stat is re-read:
if the mtime (seconds or nanoseconds) differs from the open-time snapshot
the run is fatal with "File changed during copy". -/
def copy_file_contents (src : SrcFile) : Except Err CcResult :=
  if src.content.length = 0 then .ok ⟨[], false, false⟩
  else if src.content.length > ssizeMax then .error .sizeInvalid
  else if src.mtimAfter = src.stat.mtim then .ok ⟨src.content, true, true⟩
  else .error .fileChanged

/-- Embeds copy_metadata (src/update-mod-nss.c:651): always copies uid and
gid from the source stat; copies mode bits (mode & 07777) unless the
source is a symbolic link; copies atime and mtime only when
copyTimestamps is set. -/
def copy_metadata (srcst : Stat) (dest : Stat) (copyTimestamps : Bool) : Stat :=
  let d1 := { dest with uid := srcst.uid, gid := srcst.gid }
  let d2 := if srcst.ftype = FType.lnk then d1
            else { d1 with mode := srcst.mode &&& 0o7777 }
  if copyTimestamps then { d2 with atim := srcst.atim, mtim := srcst.mtim }
  else d2

/-- Embeds copy_file (src/update-mod-nss.c:761), the regular-file case of
the full-tree pass.  The destination is created exclusively (O_EXCL, mode
0600, owned by the running identity euid/egid, timestamps "now"); when it
already exists (EEXIST) it is instead re-opened O_WRONLY|O_NOFOLLOW, which
succeeds exactly for a regular file, and both the content copy and the
timestamp copy are skipped; metadata is synchronized in both cases.  The
name argument mirrors the C parameter, which is used only to form paths
and log messages. -/
def copy_file (euid egid : Nat) (now : TimeSpec) (name : String)
    (src : SrcFile) (dest : Option FileNode) : Except Err FileNode :=
  match dest with
  | none =>
    match copy_file_contents src with
    | .error e => .error e
    | .ok cc =>
      .ok { content := cc.destContent,
            stat := copy_metadata src.stat
              ⟨FType.reg, 0o600, euid, egid, now, now⟩ true }
  | some d =>
    if d.stat.ftype = FType.reg then
      .ok { d with stat := copy_metadata src.stat d.stat false }
    else .error .openFailed

/-- The just-created destination link as observed by the read-back
verification in create_symlink: the file type found by fstat and the
target read back.  For an undisturbed link this is ⟨FType.lnk, the written
target⟩; concurrent mutation can make it differ.  The stat size of a
symbolic link is the length of its target, so the observed st_size is
obs.target.length. -/
structure ObsLink where
  ftype : FType
  target : String
deriving DecidableEq

/-- Embeds create_symlink (src/update-mod-nss.c:576): writes the link,
re-opens and fstats it, requires it to still be a symbolic link whose
recorded target size is positive, bounded, and equal to the written
target's length, then reads the target back and byte-compares it against
the written target; every mismatch is fatal. -/
def create_symlink (target : String) (obs : ObsLink) : Except Err ObsLink :=
  if obs.ftype ≠ FType.lnk then .error .notSymlink
  else if obs.target.length = 0 ∨ obs.target.length > ssizeMax - 1 then
    .error .sizeInvalid
  else if obs.target.length ≠ target.length then .error .targetChanged
  else if obs.target ≠ target then .error .targetChanged
  else .ok obs

/-- Embeds copy_link (src/update-mod-nss.c:821): validates the source
link's recorded target size, creates the destination link via
create_symlink (with the read-back verification) and copies metadata with
timestamps.  srcTarget is the target read from the source link, so
srcTarget.length is the source's recorded st_size for a consistent read;
fresh is the stat the just-created destination link starts with. -/
def copy_link (srcst : Stat) (srcTarget : String) (obs : ObsLink)
    (fresh : Stat) : Except Err (String × Stat) :=
  if srcTarget.length = 0 ∨ srcTarget.length > ssizeMax - 1 then
    .error .sizeInvalid
  else
    match create_symlink srcTarget obs with
    | .error e => .error e
    | .ok l => .ok (l.target, copy_metadata srcst fresh true)

/-- Per-file body of copy_nssdb_files (src/update-mod-nss.c:472): open the
source (fatal when missing), require a regular file, create the
destination exclusively, copy the content with the race check, then set
the group to the NSS group (fchown with uid -1, so the user stays the
creating identity euid), set mode 0660 (fchmod with the fixed constant),
and copy both source timestamps (futimens). -/
def copy_store_file (euid nssGid : Nat) (srcq : Option SrcFile) :
    Except Err FileNode :=
  match srcq with
  | none => .error .openFailed
  | some src =>
    if src.stat.ftype ≠ FType.reg then .error .notRegular
    else
      match copy_file_contents src with
      | .error e => .error e
      | .ok cc =>
        .ok { content := cc.destContent,
              stat := ⟨FType.reg, 0o660, euid, nssGid,
                       src.stat.atim, src.stat.mtim⟩ }

/-- The fixed store file names, in the order the C array lists them. -/
def storeNames : List String := ["cert8.db", "key3.db", "secmod.db"]

/-- Embeds copy_nssdb_files (src/update-mod-nss.c:472): the three fixed
store files, processed in the fixed order of storeNames; the first fatal
error aborts the run. -/
def copy_nssdb_files (euid nssGid : Nat) (srcs : String → Option SrcFile) :
    Except Err (List (String × FileNode)) :=
  match copy_store_file euid nssGid (srcs "cert8.db") with
  | .error e => .error e
  | .ok f1 =>
    match copy_store_file euid nssGid (srcs "key3.db") with
    | .error e => .error e
    | .ok f2 =>
      match copy_store_file euid nssGid (srcs "secmod.db") with
      | .error e => .error e
      | .ok f3 => .ok [("cert8.db", f1), ("key3.db", f2), ("secmod.db", f3)]

/-- A certificate record of the store: nickname plus encoded bytes. -/
structure CertRecord where
  nickname : String
  der : List Nat
deriving DecidableEq

/-- Embeds the deletion loop of remove_old_certs
(src/update-mod-nss.c:1282): walks the listed records and permanently
deletes every record whose nickname compares equal (strcmp) to the target
hostname, counting the deletions; records with any other nickname are
left untouched.  The store itself is modelled from the spec's opaque
store interface as the list of its records. -/
def remove_old_certs (hostname : String) :
    List CertRecord → List CertRecord × Nat
  | [] => ([], 0)
  | r :: rest =>
    let p := remove_old_certs hostname rest
    if r.nickname = hostname then (p.1, p.2 + 1) else (r :: p.1, p.2)

/-- Embeds add_new_cert (src/update-mod-nss.c:1328); the import operation
PK11_ImportCert is modelled from the spec's store interface: it adds one
record under the target hostname nickname. -/
def add_new_cert (hostname : String) (der : List Nat)
    (store : List CertRecord) : List CertRecord :=
  store ++ [⟨hostname, der⟩]

/-- The store mutation main performs between init_libnss and
shutdown_libnss: remove_old_certs, then add_new_cert. -/
def update_store (hostname : String) (der : List Nat)
    (store : List CertRecord) : List CertRecord :=
  add_new_cert hostname der (remove_old_certs hostname store).1

/-- One decimal digit rendered as a character. -/
def digitChar (d : Nat) : Char := Char.ofNat (48 + d)

/-- Unpadded decimal rendering of a natural number, as strftime %Y renders
a (non-negative) year. -/
def decChars (n : Nat) : List Char :=
  if h : n < 10 then [digitChar n]
  else decChars (n / 10) ++ [digitChar (n % 10)]
decreasing_by exact Nat.div_lt_self (by omega) (by omega)

/-- Two-digit zero-padded decimal rendering, as strftime %m %d %H %M %S
render their fields. -/
def pad2 (n : Nat) : List Char :=
  if n < 10 then '0' :: decChars n else decChars n

/-- Broken-down UTC time as gmtime returns it for a non-negative time_t:
year is tm_year + 1900, mon is tm_mon + 1, and so on. -/
structure Tm where
  year : Nat
  mon : Nat
  mday : Nat
  hour : Nat
  minute : Nat
  sec : Nat
deriving DecidableEq

/-- The strftime format %Y%m%d%H%M%S used by new_nssdb_dir. -/
def tm_chars (tm : Tm) : List Char :=
  decChars tm.year ++ pad2 tm.mon ++ pad2 tm.mday ++ pad2 tm.hour ++
    pad2 tm.minute ++ pad2 tm.sec

/-- Embeds the naming part of new_nssdb_dir (src/update-mod-nss.c:347):
fatal when the UTC year exceeds 9999; fatal when the formatted timestamp
is not exactly 14 characters (the check on strftime's return value);
otherwise the new generation directory is named "alias-" followed by the
timestamp. -/
def new_nssdb_dir (tm : Tm) : Except Err String :=
  if tm.year > 9999 then .error .yearOutOfRange
  else if (tm_chars tm).length ≠ 14 then .error .fmtFailed
  else .ok (String.mk ("alias-".toList ++ tm_chars tm))

/-- A symbolic link entry of the configuration directory. -/
structure LinkNode where
  target : String
  uid : Nat
  gid : Nat
deriving DecidableEq

/-- The configuration directory as far as the alias swap touches it: the
live alias link and the temporary alias.new link. -/
structure ConfDir where
  aliasLink : Option LinkNode
  aliasNew : Option LinkNode
deriving DecidableEq

/-- Embeds update_nssdb_symlink (src/update-mod-nss.c:708) as the sequence
of configuration-directory states an external reader can observe: the
starting state, the state after create_symlink makes alias.new (owned by
the running identity euid/egid and verified by read-back against the new
generation name), the state after the fchownat of alias.new to the alias
ownership captured by old_nssdb_dir (linkUid/linkGid), and the state
after the renameat of alias.new over alias, which atomically replaces the
alias entry with the temporary link and removes the temporary name. -/
def update_nssdb_symlink (euid egid linkUid linkGid : Nat) (newName : String)
    (s0 : ConfDir) : Except Err (List ConfDir) :=
  match s0.aliasNew with
  | some _ => .error .openFailed
  | none =>
    let s1 : ConfDir := { s0 with aliasNew := some ⟨newName, euid, egid⟩ }
    match create_symlink newName ⟨FType.lnk, newName⟩ with
    | .error e => .error e
    | .ok _ =>
      let s2 : ConfDir := { s1 with aliasNew := some ⟨newName, linkUid, linkGid⟩ }
      let s3 : ConfDir := { aliasLink := s2.aliasNew, aliasNew := none }
      .ok [s0, s1, s2, s3]

/-- The externally visible state main evolves: the alias target, whether
any certificate-store mutation has been performed, and whether the old
generation directory still exists. -/
structure SysState where
  aliasTarget : String
  storeMutated : Bool
  oldDirPresent : Bool
deriving DecidableEq

/-- The environment of one run of main: the identity and NSS group, the
store-file sources with their race behaviour, whether the NSS store
operations, the full-tree copy, the reap of the old generation and the
final close calls succeed, and the old and new generation names. -/
structure MainEnv where
  euid : Nat
  nssGid : Nat
  storeSrc : String → Option SrcFile
  nssOk : Bool
  treeOk : Bool
  reapOk : Bool
  closeOk : Bool
  oldName : String
  newName : String

/-- Phase of main (src/update-mod-nss.c:1393): copy_nssdb_files.  No
externally visible state changes; a race or open failure is fatal. -/
def phase_copy_store (env : MainEnv) (s : SysState) : Except Err SysState :=
  match copy_nssdb_files env.euid env.nssGid env.storeSrc with
  | .error e => .error e
  | .ok _ => .ok s

/-- Phase of main (src/update-mod-nss.c:1399): the store mutation
(init_libnss, remove_old_certs, add_new_cert, shutdown_libnss) under the
switched effective identity; a store-library failure is fatal. -/
def phase_update_store (env : MainEnv) (s : SysState) : Except Err SysState :=
  if env.nssOk then .ok { s with storeMutated := true } else .error .nssFailed

/-- Phase of main (src/update-mod-nss.c:1408): copy_nssdb_dir, the
full-tree replication; any failure is fatal. -/
def phase_copy_tree (env : MainEnv) (s : SysState) : Except Err SysState :=
  if env.treeOk then .ok s else .error .copyFailed

/-- Phase of main (src/update-mod-nss.c:1409): update_nssdb_symlink; on
success the alias target becomes the new generation name. -/
def phase_swap (env : MainEnv) (s : SysState) : Except Err SysState :=
  match create_symlink env.newName ⟨FType.lnk, env.newName⟩ with
  | .error e => .error e
  | .ok _ => .ok { s with aliasTarget := env.newName }

/-- Phase of main (src/update-mod-nss.c:1411): delete_old_nssdb_dir, the
recursive deletion of the old generation followed by the removal of the
directory itself.  Any openat, fstat, unlinkat, readdir or close failure
inside delete_dir_contents or delete_old_nssdb_dir
(src/update-mod-nss.c:1060-1144) is fatal; every such fatal happens while
the old generation directory itself still exists, since its own unlinkat
is the last operation of the phase. -/
def phase_reap (env : MainEnv) (s : SysState) : Except Err SysState :=
  if env.reapOk then .ok { s with oldDirPresent := false }
  else .error .reapFailed

/-- The close calls at the end of main (src/update-mod-nss.c:1413-1424),
after the reap: they can still terminate the run fatally, with the old
generation already removed, but change no observable state. -/
def phase_close (env : MainEnv) (s : SysState) : Except Err SysState :=
  if env.closeOk then .ok s else .error .closeFailed

/-- Runs a list of phases from a state, collecting every state a crash or
an external observer could see (the state before each phase and the final
state); the first fatal error ends the run. -/
def runPhases (ps : List (SysState → Except Err SysState)) (s : SysState) :
    List SysState × Option Err :=
  match ps with
  | [] => ([s], none)
  | p :: rest =>
    match p s with
    | .error e => ([s], some e)
    | .ok s1 =>
      let r := runPhases rest s1
      (s :: r.1, r.2)

/-- The state at process start: the alias references the old generation,
no store mutation has happened, the old generation directory exists. -/
def initState (env : MainEnv) : SysState := ⟨env.oldName, false, true⟩

/-- The phase order of main (src/update-mod-nss.c:1376): store-file
replication, store update, full-tree copy, alias swap, reap, final
closes. -/
def mainPhases (env : MainEnv) : List (SysState → Except Err SysState) :=
  [phase_copy_store env, phase_update_store env, phase_copy_tree env,
   phase_swap env, phase_reap env, phase_close env]

/-- One run of main over its environment: the observable state trace and
the fatal error, if any. -/
def mainRun (env : MainEnv) : List SysState × Option Err :=
  runPhases (mainPhases env) (initState env)

/-!  Helper lemmas. -/

lemma remove_old_certs_fst (hostname : String) (store : List CertRecord) :
    (remove_old_certs hostname store).1
      = store.filter (fun r => r.nickname != hostname) := by
  induction store with
  | nil => rfl
  | cons r rest ih =>
    by_cases h : r.nickname = hostname <;>
      simp [remove_old_certs, h, ih, List.filter_cons]

lemma filter_eq_of_filter_ne (hostname : String) (l : List CertRecord) :
    (l.filter (fun r => r.nickname != hostname)).filter
        (fun r => r.nickname == hostname) = [] := by
  induction l with
  | nil => rfl
  | cons r rest ih =>
    by_cases h : r.nickname = hostname <;> simp [List.filter_cons, h, ih]

lemma filter_ne_of_filter_ne (hostname : String) (l : List CertRecord) :
    (l.filter (fun r => r.nickname != hostname)).filter
        (fun r => r.nickname != hostname)
      = l.filter (fun r => r.nickname != hostname) := by
  induction l with
  | nil => rfl
  | cons r rest ih =>
    by_cases h : r.nickname = hostname <;> simp [List.filter_cons, h, ih]

/-!  Claim theorems. -/

/-- Claim C1: after a successful run the certificate store contains
exactly the records that existed before minus every record whose nickname
exactly equals the target hostname, plus exactly one new record keyed by
the target hostname whose content equals the input certificate; all other
records are unchanged. -/
theorem store_update_exact (hostname : String) (der : List Nat)
    (store : List CertRecord) :
    update_store hostname der store
        = store.filter (fun r => r.nickname != hostname) ++ [⟨hostname, der⟩]
    ∧ (update_store hostname der store).filter
          (fun r => r.nickname == hostname) = [⟨hostname, der⟩]
    ∧ (update_store hostname der store).filter
          (fun r => r.nickname != hostname)
        = store.filter (fun r => r.nickname != hostname) := by
  have h1 : update_store hostname der store
      = store.filter (fun r => r.nickname != hostname) ++ [⟨hostname, der⟩] := by
    simp [update_store, add_new_cert, remove_old_certs_fst]
  refine ⟨h1, ?_, ?_⟩
  · rw [h1, List.filter_append, filter_eq_of_filter_ne]
    simp
  · rw [h1, List.filter_append, filter_ne_of_filter_ne]
    simp

/-- Claim C10: a zero-size source makes copy_file_contents return
immediately, with no destination write, no pre-allocation and no
modification-timestamp race check, so the fatal "file changed during
copy" error can only be raised for sources whose initial size is strictly
positive. -/
theorem zero_size_copy_noop :
    (∀ src : SrcFile, src.content.length = 0 →
        copy_file_contents src = .ok ⟨[], false, false⟩)
    ∧ (∀ src : SrcFile, copy_file_contents src = .error Err.fileChanged →
        0 < src.content.length) := by
  constructor
  · intro src h
    simp [copy_file_contents, h]
  · intro src h
    by_contra hc
    have h0 : src.content.length = 0 := by omega
    simp [copy_file_contents, h0] at h

/-- Concrete zero-length store-file source whose content and mtime both
change while the run is in progress. -/
def srcEmptyW : SrcFile :=
  ⟨⟨FType.reg, 0o660, 0, 48, ⟨1, 0⟩, ⟨2, 0⟩⟩, [], [9], ⟨3, 0⟩⟩

/-- Witness for zero_size_copy_noop at a concrete zero-length source. -/
theorem zero_size_copy_noop_witness :
    copy_file_contents srcEmptyW = .ok ⟨[], false, false⟩ :=
  zero_size_copy_noop.1 srcEmptyW rfl

/-- Claim C9: in the full-tree pass a pre-existing destination whose name
collides with a regular source file gets a metadata-only sync, for any
name (store file name or not) and without any comparison of the existing
destination's content or size against the source; the only requirement is
that the existing destination opens for writing without following
symlinks, which holds exactly when it is a regular file. -/
theorem existing_dest_metadata_only (euid egid : Nat) (now : TimeSpec) :
    (∀ (name : String) (src : SrcFile) (d : FileNode),
        d.stat.ftype = FType.reg →
        copy_file euid egid now name src (some d)
          = .ok { d with stat := copy_metadata src.stat d.stat false })
    ∧ (∀ (name : String) (src : SrcFile) (d : FileNode),
        d.stat.ftype ≠ FType.reg →
        copy_file euid egid now name src (some d) = .error Err.openFailed) := by
  constructor <;> intro name src d h <;> simp [copy_file, h]

/-- Concrete source file for the copy_file witnesses. -/
def srcW9 : SrcFile :=
  ⟨⟨FType.reg, 0o644, 3, 4, ⟨5, 0⟩, ⟨6, 0⟩⟩, [1, 2, 3], [1, 2, 3], ⟨6, 0⟩⟩

/-- Concrete pre-existing destination, with content different from the
source, for the copy_file witnesses. -/
def destW9 : FileNode := ⟨⟨FType.reg, 0o600, 0, 48, ⟨7, 0⟩, ⟨8, 0⟩⟩, [9, 9]⟩

/-- Witness for existing_dest_metadata_only at a concrete collision. -/
theorem existing_dest_metadata_only_witness :
    copy_file 0 0 ⟨0, 0⟩ "secmod.db" srcW9 (some destW9)
      = .ok { destW9 with stat := copy_metadata srcW9.stat destW9.stat false } :=
  (existing_dest_metadata_only 0 0 ⟨0, 0⟩).1 "secmod.db" srcW9 destW9 rfl

/-- Claim C6: in the full-tree pass a regular source file with no
existing destination is created with its content copied and ownership,
permission bits and timestamps all copied from the source, while an
already existing destination keeps its content and timestamps and only
ownership and permission bits are synchronized from the source. -/
theorem tree_file_copy_cases (euid egid : Nat) (now : TimeSpec)
    (name : String) (src : SrcFile) (hreg : src.stat.ftype = FType.reg)
    (hnorace : src.mtimAfter = src.stat.mtim)
    (hbound : src.content.length ≤ ssizeMax) :
    copy_file euid egid now name src none
        = .ok ⟨⟨FType.reg, src.stat.mode &&& 0o7777, src.stat.uid,
                src.stat.gid, src.stat.atim, src.stat.mtim⟩, src.content⟩
    ∧ (∀ d : FileNode, d.stat.ftype = FType.reg →
        copy_file euid egid now name src (some d)
          = .ok ⟨⟨FType.reg, src.stat.mode &&& 0o7777, src.stat.uid,
                  src.stat.gid, d.stat.atim, d.stat.mtim⟩, d.content⟩) := by
  have hlnk : ¬ src.stat.ftype = FType.lnk := by rw [hreg]; decide
  constructor
  · by_cases h0 : src.content.length = 0
    · have hnil : src.content = [] := List.length_eq_zero.mp h0
      simp [copy_file, copy_file_contents, h0, hnil, copy_metadata, hlnk]
    · have hle : ¬ src.content.length > ssizeMax := by omega
      simp [copy_file, copy_file_contents, h0, hle, hnorace, copy_metadata,
        hlnk]
  · intro d hd
    simp [copy_file, hd, copy_metadata, hlnk]

/-- Witness for tree_file_copy_cases at a concrete fresh destination. -/
theorem tree_file_copy_cases_witness :
    copy_file 0 0 ⟨0, 0⟩ "pkcs11.txt" srcW9 none
      = .ok ⟨⟨FType.reg, srcW9.stat.mode &&& 0o7777, srcW9.stat.uid,
              srcW9.stat.gid, srcW9.stat.atim, srcW9.stat.mtim⟩,
             srcW9.content⟩ :=
  (tree_file_copy_cases 0 0 ⟨0, 0⟩ "pkcs11.txt" srcW9 rfl rfl
    (by decide)).1

/-- Claim C7: for every symbolic link replicated by the tree pass, the
newly created destination link is re-read and its target byte-compared
against the value just read from the source, and the run terminates
fatally whenever they differ, a differing recorded target length
included. -/
theorem link_readback_mismatch_fatal (srcst : Stat) (srcTarget : String)
    (obs : ObsLink) (fresh : Stat)
    (hpos : 0 < srcTarget.length) (hbound : srcTarget.length ≤ ssizeMax - 1)
    (hdiff : obs.target ≠ srcTarget) :
    ∃ e, copy_link srcst srcTarget obs fresh = .error e := by
  have h1 : ¬ (srcTarget.length = 0 ∨ srcTarget.length > ssizeMax - 1) := by
    omega
  unfold copy_link
  rw [if_neg h1]
  unfold create_symlink
  by_cases h2 : obs.ftype = FType.lnk
  · by_cases h3 : obs.target.length = 0 ∨ obs.target.length > ssizeMax - 1
    · simp [h2, h3]
    · by_cases h4 : obs.target.length = srcTarget.length
      · simp [h2, h3, h4, hdiff]
        rw [if_neg h1]
        exact ⟨_, rfl⟩
      · simp [h2, h3, h4]
  · simp [h2]

/-- Witness for link_readback_mismatch_fatal: the re-read target differs
from the one read from the source. -/
theorem link_readback_mismatch_fatal_witness :
    ∃ e, copy_link ⟨FType.lnk, 0o777, 1, 1, ⟨0, 0⟩, ⟨0, 0⟩⟩ "old-target"
        ⟨FType.lnk, "new-target"⟩ ⟨FType.lnk, 0o777, 0, 0, ⟨0, 0⟩, ⟨0, 0⟩⟩
      = .error e :=
  link_readback_mismatch_fatal _ _ _ _ (by decide) (by decide) (by decide)

lemma decChars_low {n : Nat} (h : n < 10) : decChars n = [digitChar n] := by
  rw [decChars, dif_pos h]

lemma decChars_high {n : Nat} (h : 10 ≤ n) :
    decChars n = decChars (n / 10) ++ [digitChar (n % 10)] := by
  rw [decChars, dif_neg (by omega : ¬ n < 10)]

lemma decChars_len1 {n : Nat} (h : n < 10) : (decChars n).length = 1 := by
  simp [decChars_low h]

lemma decChars_len_four {n : Nat} (h1 : 1000 ≤ n) (h2 : n ≤ 9999) :
    (decChars n).length = 4 := by
  rw [decChars_high (by omega : 10 ≤ n),
    decChars_high (by omega : 10 ≤ n / 10),
    decChars_high (by omega : 10 ≤ n / 10 / 10),
    decChars_low (by omega : n / 10 / 10 / 10 < 10)]
  simp

lemma decChars_len_le3 {n : Nat} (h : n ≤ 999) : (decChars n).length ≤ 3 := by
  by_cases h1 : n < 10
  · simp [decChars_len1 h1]
  · by_cases h2 : n < 100
    · rw [decChars_high (by omega : 10 ≤ n),
        decChars_low (by omega : n / 10 < 10)]
      simp
    · rw [decChars_high (by omega : 10 ≤ n),
        decChars_high (by omega : 10 ≤ n / 10),
        decChars_low (by omega : n / 10 / 10 < 10)]
      simp

lemma digitChar_isDigit {d : Nat} (h : d < 10) : (digitChar d).isDigit = true := by
  interval_cases d <;> decide

lemma decChars_digits (n : Nat) : ∀ c ∈ decChars n, c.isDigit = true := by
  induction n using Nat.strong_induction_on with
  | _ n ih =>
    by_cases h : n < 10
    · rw [decChars_low h]
      intro c hc
      rw [List.mem_singleton] at hc
      subst hc
      exact digitChar_isDigit h
    · rw [decChars_high (by omega : 10 ≤ n)]
      intro c hc
      rcases List.mem_append.mp hc with h1 | h1
      · exact ih (n / 10) (Nat.div_lt_self (by omega) (by omega)) c h1
      · rw [List.mem_singleton] at h1
        subst h1
        exact digitChar_isDigit (Nat.mod_lt _ (by omega))

lemma pad2_len {n : Nat} (h : n < 100) : (pad2 n).length = 2 := by
  by_cases h1 : n < 10
  · simp [pad2, h1, decChars_len1 h1]
  · rw [pad2, if_neg h1, decChars_high (by omega : 10 ≤ n),
      decChars_low (by omega : n / 10 < 10)]
    simp

lemma pad2_digits (n : Nat) : ∀ c ∈ pad2 n, c.isDigit = true := by
  rw [pad2]
  split
  · intro c hc
    rcases List.mem_cons.mp hc with h1 | h1
    · subst h1; decide
    · exact decChars_digits n c h1
  · exact decChars_digits n

lemma tm_chars_len {tm : Tm} (hy1 : 1000 ≤ tm.year) (hy2 : tm.year ≤ 9999)
    (hm : tm.mon < 100) (hd : tm.mday < 100) (hh : tm.hour < 100)
    (hmin : tm.minute < 100) (hs : tm.sec < 100) :
    (tm_chars tm).length = 14 := by
  simp [tm_chars, decChars_len_four hy1 hy2, pad2_len hm, pad2_len hd,
    pad2_len hh, pad2_len hmin, pad2_len hs]

/-- Claim C8: the Generation Namer terminates fatally for any UTC year
outside the 4-digit range (above 9999 by the explicit year check, below
1000 because the formatted timestamp is then shorter than the required 14
characters) and otherwise produces a name that is exactly the fixed
"alias-" marker followed by the 14-digit UTC timestamp, 20 characters in
total.  The field bounds are the ranges gmtime guarantees. -/
theorem generation_name_format (tm : Tm)
    (hm : tm.mon ≤ 12) (hd : tm.mday ≤ 31) (hh : tm.hour ≤ 23)
    (hmin : tm.minute ≤ 59) (hs : tm.sec ≤ 60) :
    ((1000 ≤ tm.year ∧ tm.year ≤ 9999) →
        new_nssdb_dir tm
            = Except.ok (String.mk ("alias-".toList ++ tm_chars tm))
        ∧ (String.mk ("alias-".toList ++ tm_chars tm)).length = 20
        ∧ (tm_chars tm).length = 14
        ∧ (∀ c ∈ tm_chars tm, c.isDigit = true))
    ∧ ((tm.year < 1000 ∨ 9999 < tm.year) →
        ∃ e, new_nssdb_dir tm = Except.error e) := by
  constructor
  · rintro ⟨hy1, hy2⟩
    have hlen : (tm_chars tm).length = 14 :=
      tm_chars_len hy1 hy2 (by omega) (by omega) (by omega) (by omega)
        (by omega)
    refine ⟨?_, ?_, hlen, ?_⟩
    · rw [new_nssdb_dir, if_neg (by omega : ¬ tm.year > 9999),
        if_neg (by omega : ¬ (tm_chars tm).length ≠ 14)]
    · show ("alias-".toList ++ tm_chars tm).length = 20
      rw [List.length_append, hlen]
      rfl
    · intro c hc
      simp only [tm_chars, List.mem_append] at hc
      rcases hc with ((((h1 | h1) | h1) | h1) | h1) | h1
      · exact decChars_digits tm.year c h1
      · exact pad2_digits tm.mon c h1
      · exact pad2_digits tm.mday c h1
      · exact pad2_digits tm.hour c h1
      · exact pad2_digits tm.minute c h1
      · exact pad2_digits tm.sec c h1
  · intro hy
    rcases hy with hy | hy
    · have hlen : (tm_chars tm).length ≠ 14 := by
        have hle : (decChars tm.year).length ≤ 3 := decChars_len_le3 (by omega)
        simp only [tm_chars, List.length_append, pad2_len (by omega : tm.mon < 100),
          pad2_len (by omega : tm.mday < 100), pad2_len (by omega : tm.hour < 100),
          pad2_len (by omega : tm.minute < 100), pad2_len (by omega : tm.sec < 100)]
        omega
      by_cases hy2 : tm.year > 9999
      · exact ⟨Err.yearOutOfRange, by rw [new_nssdb_dir, if_pos hy2]⟩
      · exact ⟨Err.fmtFailed, by rw [new_nssdb_dir, if_neg hy2, if_pos hlen]⟩
    · exact ⟨Err.yearOutOfRange, by rw [new_nssdb_dir, if_pos hy]⟩

/-- Witness for generation_name_format at a concrete in-range time. -/
theorem generation_name_format_witness :
    new_nssdb_dir ⟨2023, 3, 15, 11, 22, 33⟩
        = Except.ok (String.mk ("alias-".toList ++ tm_chars ⟨2023, 3, 15, 11, 22, 33⟩))
      ∧ (String.mk ("alias-".toList ++ tm_chars ⟨2023, 3, 15, 11, 22, 33⟩)).length = 20
      ∧ (tm_chars ⟨2023, 3, 15, 11, 22, 33⟩).length = 14
      ∧ (∀ c ∈ tm_chars ⟨2023, 3, 15, 11, 22, 33⟩, c.isDigit = true) :=
  (generation_name_format ⟨2023, 3, 15, 11, 22, 33⟩ (by decide) (by decide)
    (by decide) (by decide) (by decide)).1 ⟨by decide, by decide⟩

/-- Claim C2: the alias swap creates alias.new pointing at the new
generation name, verifies it by read-back, sets its ownership to the
captured alias ownership, then renames it over the alias in one step, so
a reader polling the alias sees its target go directly from the old name
to the new one, present at every instant with no intermediate value. -/
theorem alias_swap_trace (euid egid linkUid linkGid : Nat)
    (oldName newName : String) (u g : Nat) (s0 : ConfDir)
    (tr : List ConfDir)
    (h0 : s0.aliasLink = some ⟨oldName, u, g⟩)
    (hok : update_nssdb_symlink euid egid linkUid linkGid newName s0
      = .ok tr) :
    tr.map (fun s => Option.map LinkNode.target s.aliasLink)
        = [some oldName, some oldName, some oldName, some newName]
    ∧ (∀ s ∈ tr, s.aliasLink.isSome)
    ∧ tr.getLast? = some ⟨some ⟨newName, linkUid, linkGid⟩, none⟩
    ∧ (∃ s ∈ tr, s.aliasNew = some ⟨newName, linkUid, linkGid⟩
        ∧ s.aliasLink = some ⟨oldName, u, g⟩) := by
  rw [update_nssdb_symlink] at hok
  cases hnew : s0.aliasNew with
  | some l => rw [hnew] at hok; cases hok
  | none =>
    rw [hnew] at hok
    cases hcs : create_symlink newName ⟨FType.lnk, newName⟩ with
    | error e => rw [hcs] at hok; cases hok
    | ok l =>
      rw [hcs] at hok
      cases hok
      refine ⟨?_, ?_, ?_, ?_⟩
      · simp [h0]
      · intro s hs
        simp only [List.mem_cons, List.not_mem_nil, or_false] at hs
        rcases hs with rfl | rfl | rfl | rfl <;> simp [h0]
      · rfl
      · exact ⟨_, List.mem_cons_of_mem _ (List.mem_cons_of_mem _
          (List.mem_cons_self _ _)), rfl, h0⟩

/-- Concrete starting configuration directory for the swap witness. -/
def confW : ConfDir := ⟨some ⟨"alias-20230101000000", 3, 4⟩, none⟩

/-- The observable trace of the concrete swap in the witness below. -/
def trW : List ConfDir :=
  [confW,
   { confW with aliasNew := some ⟨"alias-20230102000000", 0, 0⟩ },
   { confW with aliasNew := some ⟨"alias-20230102000000", 3, 4⟩ },
   ⟨some ⟨"alias-20230102000000", 3, 4⟩, none⟩]

/-- Witness for alias_swap_trace on a concrete successful swap. -/
theorem alias_swap_trace_witness :
    trW.map (fun s => Option.map LinkNode.target s.aliasLink)
        = [some "alias-20230101000000", some "alias-20230101000000",
           some "alias-20230101000000", some "alias-20230102000000"]
    ∧ (∀ s ∈ trW, s.aliasLink.isSome)
    ∧ trW.getLast? = some ⟨some ⟨"alias-20230102000000", 3, 4⟩, none⟩
    ∧ (∃ s ∈ trW, s.aliasNew = some ⟨"alias-20230102000000", 3, 4⟩
        ∧ s.aliasLink = some ⟨"alias-20230101000000", 3, 4⟩) :=
  alias_swap_trace 0 0 3 4 "alias-20230101000000" "alias-20230102000000"
    3 4 confW trW rfl rfl

lemma copy_store_file_ok (euid nssGid : Nat) (src : SrcFile)
    (hr : src.stat.ftype = FType.reg) (hn : src.mtimAfter = src.stat.mtim)
    (hb : src.content.length ≤ ssizeMax) :
    copy_store_file euid nssGid (some src)
      = .ok ⟨⟨FType.reg, 0o660, euid, nssGid, src.stat.atim,
              src.stat.mtim⟩, src.content⟩ := by
  by_cases h0 : src.content.length = 0
  · have hnil : src.content = [] := List.length_eq_zero.mp h0
    simp [copy_store_file, copy_file_contents, hr, h0, hnil]
  · have hle : ¬ src.content.length > ssizeMax := by omega
    simp [copy_store_file, copy_file_contents, hr, h0, hle, hn]

lemma copy_store_file_race (euid nssGid : Nat) (src : SrcFile)
    (hr : src.stat.ftype = FType.reg) (hpos : 0 < src.content.length)
    (hb : src.content.length ≤ ssizeMax)
    (hrace : src.mtimAfter ≠ src.stat.mtim) :
    copy_store_file euid nssGid (some src) = .error Err.fileChanged := by
  have h0 : ¬ src.content.length = 0 := by omega
  have hle : ¬ src.content.length > ssizeMax := by omega
  simp [copy_store_file, copy_file_contents, hr, h0, hle, hrace]

lemma copy_nssdb_files_race (euid nssGid : Nat)
    (srcs : String → Option SrcFile) (name : String)
    (hmem : name ∈ storeNames) (src : SrcFile)
    (hsrc : srcs name = some src)
    (hr : src.stat.ftype = FType.reg) (hpos : 0 < src.content.length)
    (hb : src.content.length ≤ ssizeMax)
    (hrace : src.mtimAfter ≠ src.stat.mtim) :
    ∃ e, copy_nssdb_files euid nssGid srcs = .error e := by
  have herr := copy_store_file_race euid nssGid src hr hpos hb hrace
  have hone : name = "cert8.db" ∨ name = "key3.db" ∨ name = "secmod.db" := by
    simpa [storeNames] using hmem
  rcases hone with rfl | rfl | rfl
  · exact ⟨Err.fileChanged, by simp [copy_nssdb_files, hsrc, herr]⟩
  · cases hA : copy_store_file euid nssGid (srcs "cert8.db") with
    | error e => exact ⟨e, by simp [copy_nssdb_files, hA]⟩
    | ok f =>
      exact ⟨Err.fileChanged, by simp [copy_nssdb_files, hA, hsrc, herr]⟩
  · cases hA : copy_store_file euid nssGid (srcs "cert8.db") with
    | error e => exact ⟨e, by simp [copy_nssdb_files, hA]⟩
    | ok f =>
      cases hB : copy_store_file euid nssGid (srcs "key3.db") with
      | error e => exact ⟨e, by simp [copy_nssdb_files, hA, hB]⟩
      | ok f2 =>
        exact ⟨Err.fileChanged, by simp [copy_nssdb_files, hA, hB, hsrc, herr]⟩

/-- Concrete store-file source with mode 0644 and group 42, unchanged
during the copy, used to refute claim C5 as stated. -/
def src644 : SrcFile :=
  ⟨⟨FType.reg, 0o644, 7, 42, ⟨1, 1⟩, ⟨2, 2⟩⟩, [5], [5], ⟨2, 2⟩⟩

/-- Counterexample to claim C5 as stated: the Store File Replicator does
not copy the source's mode bits or group onto the destination.  With a
source of mode 0644 and group 42 and a target store group of 100, the
replication succeeds and every destination has the fixed mode 0660 and
group 100. -/
theorem store_file_metadata_not_from_source :
    src644.stat.mode = 0o644 ∧ src644.stat.gid = 42
    ∧ copy_nssdb_files 0 100 (fun _ => some src644)
        = .ok [("cert8.db",
                ⟨⟨FType.reg, 0o660, 0, 100, ⟨1, 1⟩, ⟨2, 2⟩⟩, [5]⟩),
               ("key3.db",
                ⟨⟨FType.reg, 0o660, 0, 100, ⟨1, 1⟩, ⟨2, 2⟩⟩, [5]⟩),
               ("secmod.db",
                ⟨⟨FType.reg, 0o660, 0, 100, ⟨1, 1⟩, ⟨2, 2⟩⟩, [5]⟩)]
    ∧ (0o660 : Nat) ≠ 0o644 ∧ (100 : Nat) ≠ 42 := by
  refine ⟨rfl, rfl, ?_, by decide, by decide⟩
  have h := copy_store_file_ok 0 100 src644 rfl rfl (by decide)
  simp [copy_nssdb_files, h]
  exact ⟨⟨rfl, rfl⟩, rfl⟩

/-- Claim C5 (amended): for each of the three fixed store files, processed
in the fixed order cert8.db, key3.db, secmod.db, the Store File Replicator
leaves the user ownership as created (the running identity), sets the
destination's group to the target store's group (not the source's), sets
the destination's mode to the fixed creation mode 0660 (not the source's
mode bits), and copies both the source's access and modification
timestamps onto the destination. -/
theorem store_files_replication_metadata (euid nssGid : Nat)
    (srcs : String → Option SrcFile) (f1 f2 f3 : SrcFile)
    (h1 : srcs "cert8.db" = some f1) (h2 : srcs "key3.db" = some f2)
    (h3 : srcs "secmod.db" = some f3)
    (hr1 : f1.stat.ftype = FType.reg) (hr2 : f2.stat.ftype = FType.reg)
    (hr3 : f3.stat.ftype = FType.reg)
    (hn1 : f1.mtimAfter = f1.stat.mtim) (hn2 : f2.mtimAfter = f2.stat.mtim)
    (hn3 : f3.mtimAfter = f3.stat.mtim)
    (hb1 : f1.content.length ≤ ssizeMax) (hb2 : f2.content.length ≤ ssizeMax)
    (hb3 : f3.content.length ≤ ssizeMax) :
    copy_nssdb_files euid nssGid srcs
      = .ok [("cert8.db",
              ⟨⟨FType.reg, 0o660, euid, nssGid, f1.stat.atim,
                f1.stat.mtim⟩, f1.content⟩),
             ("key3.db",
              ⟨⟨FType.reg, 0o660, euid, nssGid, f2.stat.atim,
                f2.stat.mtim⟩, f2.content⟩),
             ("secmod.db",
              ⟨⟨FType.reg, 0o660, euid, nssGid, f3.stat.atim,
                f3.stat.mtim⟩, f3.content⟩)] := by
  simp [copy_nssdb_files, h1, h2, h3,
    copy_store_file_ok euid nssGid f1 hr1 hn1 hb1,
    copy_store_file_ok euid nssGid f2 hr2 hn2 hb2,
    copy_store_file_ok euid nssGid f3 hr3 hn3 hb3]

/-- Witness for store_files_replication_metadata at a concrete source. -/
theorem store_files_replication_metadata_witness :
    copy_nssdb_files 0 100 (fun _ => some srcW9)
      = .ok [("cert8.db",
              ⟨⟨FType.reg, 0o660, 0, 100, srcW9.stat.atim,
                srcW9.stat.mtim⟩, srcW9.content⟩),
             ("key3.db",
              ⟨⟨FType.reg, 0o660, 0, 100, srcW9.stat.atim,
                srcW9.stat.mtim⟩, srcW9.content⟩),
             ("secmod.db",
              ⟨⟨FType.reg, 0o660, 0, 100, srcW9.stat.atim,
                srcW9.stat.mtim⟩, srcW9.content⟩)] :=
  store_files_replication_metadata 0 100 (fun _ => some srcW9)
    srcW9 srcW9 srcW9 rfl rfl rfl rfl rfl rfl rfl rfl rfl
    (by decide) (by decide) (by decide)

/-- Claim C3 (amended): for every store file whose size at open is
strictly positive, a source modification observed as a changed mtime
(seconds or nanoseconds) at the post-copy re-check makes the run
terminate fatally, before any store mutation is performed and while the
alias still references the old generation.  (Zero-length sources skip
both the copy and the check; see the counterexample.) -/
theorem store_race_fatal_before_mutation (env : MainEnv) (name : String)
    (hmem : name ∈ storeNames) (src : SrcFile)
    (hsrc : env.storeSrc name = some src)
    (hr : src.stat.ftype = FType.reg) (hpos : 0 < src.content.length)
    (hb : src.content.length ≤ ssizeMax)
    (hrace : src.mtimAfter ≠ src.stat.mtim) :
    (∃ e, (mainRun env).2 = some e)
    ∧ ∀ s ∈ (mainRun env).1,
        s.storeMutated = false ∧ s.aliasTarget = env.oldName := by
  obtain ⟨e, he⟩ := copy_nssdb_files_race env.euid env.nssGid env.storeSrc
    name hmem src hsrc hr hpos hb hrace
  constructor
  · exact ⟨e, by simp [mainRun, mainPhases, runPhases, phase_copy_store, he]⟩
  · intro s hs
    simp [mainRun, mainPhases, runPhases, phase_copy_store, he] at hs
    subst hs
    exact ⟨rfl, rfl⟩

/-- Concrete store-file source caught by the race check: positive size and
an mtime that moves during the copy. -/
def srcRaceW : SrcFile :=
  ⟨⟨FType.reg, 0o660, 0, 48, ⟨1, 0⟩, ⟨2, 0⟩⟩, [1], [1], ⟨3, 0⟩⟩

/-- Environment whose cert8.db source races during the copy. -/
def envRace : MainEnv :=
  ⟨0, 48, fun _ => some srcRaceW, true, true, true, true,
   "alias-20230101000000", "alias-20230102000000"⟩

/-- Witness for store_race_fatal_before_mutation on a concrete racing
run. -/
theorem store_race_fatal_before_mutation_witness :
    (∃ e, (mainRun envRace).2 = some e)
    ∧ ∀ s ∈ (mainRun envRace).1,
        s.storeMutated = false ∧ s.aliasTarget = envRace.oldName :=
  store_race_fatal_before_mutation envRace "cert8.db" (by decide)
    srcRaceW rfl rfl (by decide) (by decide) (by decide)

/-- Unchanged store-file source used in the counterexample run. -/
def srcGoodW : SrcFile :=
  ⟨⟨FType.reg, 0o660, 0, 48, ⟨1, 0⟩, ⟨2, 0⟩⟩, [1], [1], ⟨2, 0⟩⟩

/-- Environment whose cert8.db source is the zero-length file srcEmptyW,
whose content and mtime both change during the run; the other store files
are quiet and all later phases succeed. -/
def envZero : MainEnv :=
  ⟨0, 48,
   fun n => if n = "cert8.db" then some srcEmptyW else some srcGoodW,
   true, true, true, true, "alias-20230101000000", "alias-20230102000000"⟩

/-- Counterexample to claim C3 as stated: a zero-length store file whose
content and size (and mtime) change during its copy does not make the run
terminate fatally; the run completes, mutates the store and moves the
alias, because copy_file_contents returns before the race check for
zero-size sources. -/
theorem zero_size_store_race_not_fatal :
    envZero.storeSrc "cert8.db" = some srcEmptyW
    ∧ srcEmptyW.content ≠ srcEmptyW.contentAfter
    ∧ srcEmptyW.mtimAfter ≠ srcEmptyW.stat.mtim
    ∧ (mainRun envZero).2 = none
    ∧ (∃ s ∈ (mainRun envZero).1, s.storeMutated = true)
    ∧ (∃ s ∈ (mainRun envZero).1, s.aliasTarget = envZero.newName) := by
  have hrun : mainRun envZero
      = ([⟨"alias-20230101000000", false, true⟩,
          ⟨"alias-20230101000000", false, true⟩,
          ⟨"alias-20230101000000", true, true⟩,
          ⟨"alias-20230101000000", true, true⟩,
          ⟨"alias-20230102000000", true, true⟩,
          ⟨"alias-20230102000000", true, false⟩,
          ⟨"alias-20230102000000", true, false⟩], none) := rfl
  refine ⟨rfl, by decide, by decide, ?_, ?_, ?_⟩
  · rw [hrun]
  · rw [hrun]
    exact ⟨⟨"alias-20230101000000", true, true⟩, by simp, rfl⟩
  · rw [hrun]
    exact ⟨⟨"alias-20230102000000", true, false⟩, by simp, rfl⟩

/-- Claim C4: the Reaper runs strictly after the alias rename, so in every
observable state of a run the old generation directory has been removed
only if the alias already references the new generation (so no state,
fatal runs during or after reaping included, has the alias dangling on a
removed old generation); every run that terminates fatally before the
rename completed leaves the alias on the old name with the old generation
intact — the trace holds the initial state plus one state per completed
phase, so a trace of at most four states means the swap phase, the
fourth, did not complete and the rename never took effect; and a
successful run passes through the state just after the rename in which
the old generation is orphaned but the alias is already consistent. -/
theorem reap_after_swap_consistency (env : MainEnv)
    (hnames : env.oldName ≠ env.newName) :
    (∀ s ∈ (mainRun env).1,
        (s.oldDirPresent = false → s.aliasTarget = env.newName)
        ∧ (s.aliasTarget = env.oldName → s.oldDirPresent = true))
    ∧ ((mainRun env).2.isSome = true → (mainRun env).1.length ≤ 4 →
        ∀ s ∈ (mainRun env).1,
          s.aliasTarget = env.oldName ∧ s.oldDirPresent = true)
    ∧ ((mainRun env).2 = none → ∃ s ∈ (mainRun env).1,
        s.aliasTarget = env.newName ∧ s.oldDirPresent = true) := by
  cases hA : copy_nssdb_files env.euid env.nssGid env.storeSrc with
  | error e =>
    refine ⟨?_, ?_, ?_⟩ <;>
      simp [mainRun, mainPhases, runPhases, phase_copy_store, hA, initState]
  | ok l =>
    cases hB : env.nssOk with
    | false =>
      refine ⟨?_, ?_, ?_⟩ <;>
        simp [mainRun, mainPhases, runPhases, phase_copy_store, hA,
          phase_update_store, hB, initState]
    | true =>
      cases hC : env.treeOk with
      | false =>
        refine ⟨?_, ?_, ?_⟩ <;>
          simp [mainRun, mainPhases, runPhases, phase_copy_store, hA,
            phase_update_store, hB, phase_copy_tree, hC, initState]
      | true =>
        cases hD : create_symlink env.newName ⟨FType.lnk, env.newName⟩ with
        | error e =>
          refine ⟨?_, ?_, ?_⟩ <;>
            simp [mainRun, mainPhases, runPhases, phase_copy_store, hA,
              phase_update_store, hB, phase_copy_tree, hC, phase_swap, hD,
              initState]
        | ok l2 =>
          cases hE : env.reapOk with
          | false =>
            refine ⟨?_, ?_, ?_⟩ <;>
              simp [mainRun, mainPhases, runPhases, phase_copy_store, hA,
                phase_update_store, hB, phase_copy_tree, hC, phase_swap,
                hD, phase_reap, hE, initState]
          | true =>
            cases hF : env.closeOk with
            | false =>
              refine ⟨?_, ?_, ?_⟩ <;>
                simp [mainRun, mainPhases, runPhases, phase_copy_store, hA,
                  phase_update_store, hB, phase_copy_tree, hC, phase_swap,
                  hD, phase_reap, hE, phase_close, hF, initState]
              all_goals intro h; exact absurd h.symm hnames
            | true =>
              refine ⟨?_, ?_, ?_⟩ <;>
                simp [mainRun, mainPhases, runPhases, phase_copy_store, hA,
                  phase_update_store, hB, phase_copy_tree, hC, phase_swap,
                  hD, phase_reap, hE, phase_close, hF, initState]
              all_goals intro h; exact absurd h.symm hnames

/-- Witness for reap_after_swap_consistency on a concrete successful
run. -/
theorem reap_after_swap_consistency_witness :
    (∀ s ∈ (mainRun envZero).1,
        (s.oldDirPresent = false → s.aliasTarget = envZero.newName)
        ∧ (s.aliasTarget = envZero.oldName → s.oldDirPresent = true))
    ∧ ((mainRun envZero).2.isSome = true → (mainRun envZero).1.length ≤ 4 →
        ∀ s ∈ (mainRun envZero).1,
          s.aliasTarget = envZero.oldName ∧ s.oldDirPresent = true)
    ∧ ((mainRun envZero).2 = none → ∃ s ∈ (mainRun envZero).1,
        s.aliasTarget = envZero.newName ∧ s.oldDirPresent = true) :=
  reap_after_swap_consistency envZero (by decide)

end UpdateModNss
